import Mathlib

/-!
Shallow embedding of the knex OpenTelemetry instrumentation
(`src/instrumentation.ts`): configuration merging, the query wrapper
installed on the runner prototype, the context-capturing wrapper installed
on the client builder factories, and the re-wrap guard `ensureWrapped`.

JavaScript values are modelled explicitly: optional fields become `Option`,
`a || b` becomes a falsy-aware choice, object identity becomes an `oid`
field, promise resolution and rejection become `Except`, and the error
thrown to the caller distinguishes the original rejection value from an
error raised by the instrumentation's own catch handler.
-/

deriving instance DecidableEq for Except

/-- Span context as seen by `api.trace.isSpanContextValid`. -/
structure SpanContextV where
  valid : Bool
deriving DecidableEq

/-- A tracing context: an identity (for tracking which context flows where)
and the span entry that `api.trace.getSpan` reads. -/
structure Context where
  id : Nat
  span : Option SpanContextV
deriving DecidableEq

/-- The property descriptor attached by `Object.defineProperty(builder,
contextSymbol, { value })`: in JavaScript the omitted descriptor flags
default to `false`. -/
structure ContextProp where
  value : Context
  enumerable : Bool
  writable : Bool
  configurable : Bool
deriving DecidableEq

/-- A knex query builder as this instrumentation observes it: an object
identity, the internal statement state that table extraction inspects, and
the hidden `contextSymbol` property slot. -/
structure Builder where
  oid : Nat
  tableName : Option String
  ctxProp : Option ContextProp
deriving DecidableEq

/-- The `connection` part of the knex client configuration. -/
structure Connection where
  filename : Option String
  database : Option String
  user : Option String
  host : Option String
  port : Option Nat
deriving DecidableEq

/-- The knex client configuration (`this.client.config`). -/
structure ClientConfig where
  client : String
  connection : Option Connection
deriving DecidableEq

/-- The knex client (`this.client`). -/
structure Client where
  config : ClientConfig
deriving DecidableEq

/-- The runner (`this` inside the wrapped `query` method): it exposes the
client and the builder the query was created from. -/
structure Runner where
  client : Client
  builder : Builder
deriving DecidableEq

/-- The per-call query descriptor (`query` argument): `sql` is always a
string on a knex query object, `bindings` and `method` may be absent. The
descriptor itself may be nullish at the call site, hence `Option Query`
where it is consumed. -/
structure Query where
  sql : String
  bindings : Option (List String)
  method : Option String
deriving DecidableEq

/-- A rejection value from the host library: an object identity and a
`message` property that may or may not be a string. -/
structure Err where
  id : Nat
  message : Option String
deriving DecidableEq

/-- What the caller of the wrapped query method can observe being thrown:
either the original rejection value, or a failure raised by the
instrumentation's own catch handler (a TypeError from an unguarded
property access). -/
inductive Thrown where
  | original (e : Err)
  | handlerFailure (message : String)
deriving DecidableEq

/-- An attribute value that the tracing collaborator accepts. -/
inductive AttrVal where
  | str (s : String)
  | num (n : Nat)
deriving DecidableEq

/-- Span status codes of the tracing API. -/
inductive SpanStatusCode where
  | unset
  | ok
  | error
deriving DecidableEq

/-- A span status as set by `span.setStatus`. -/
structure SpanStatus where
  code : SpanStatusCode
  message : String
deriving DecidableEq

/-- Span kinds of the tracing API (only CLIENT is used here). -/
inductive SpanKind where
  | client
  | internal
deriving DecidableEq

/-- Modelled from the spec: `utils.otelExceptionFromKnexError` (utils.ts is
not under src/) builds the exception record that is put on the span from
the original error and the cleaned message (§4.5 step 6: "Record the
cleaned error as a span exception"). -/
structure OtelException where
  errId : Nat
  message : String
deriving DecidableEq

/-- A span as accumulated by the wrapper: creation-time data plus the
mutations (`recordException`, `setStatus`, `end`) applied to it. -/
structure Span where
  name : String
  kind : SpanKind
  attributes : List (String × AttrVal)
  parent : Context
  exceptions : List OtelException
  status : Option SpanStatus
  endCount : Nat
deriving DecidableEq

/-- Observable steps of one wrapped query invocation, in program order. -/
inductive QAction where
  | computeAttributes
  | startSpan
  | callOriginal
  | recordException
  | setStatus
  | endSpan
  | throwOriginal
  | throwHandlerError
  | returnResult
deriving DecidableEq

/-- The outcome of one call to the wrapped query method: what the caller
sees, the spans created, the ambient context the original method ran
under, and the ordered trace of observable steps. -/
structure QueryOutcome (α : Type) where
  result : Except Thrown α
  spans : List Span
  originalRunCtx : Option Context
  trace : List QAction
deriving DecidableEq

/-- The recognized instrumentation options. Modelled from the spec:
`KnexInstrumentationConfig` lives in types.ts which is not under src/; §6
gives the recognized options `maxQueryLength : number` (an integer ≥ 0 per
§3) and `requireParentSpan : boolean`, both optional for callers. -/
structure KnexInstrumentationConfig where
  maxQueryLength : Option Nat
  requireParentSpan : Option Bool
deriving DecidableEq

/-- `DEFAULT_CONFIG` from the source. -/
def DEFAULT_CONFIG : KnexInstrumentationConfig :=
  { maxQueryLength := some 1022, requireParentSpan := some false }

/-- JavaScript object spread `{ ...base, ...c }` restricted to the two
recognized keys: a key present on `c` overrides the one from `base`. -/
def spreadMergeConfig (base c : KnexInstrumentationConfig) :
    KnexInstrumentationConfig :=
  { maxQueryLength :=
      match c.maxQueryLength with
      | some n => some n
      | none => base.maxQueryLength,
    requireParentSpan :=
      match c.requireParentSpan with
      | some b => some b
      | none => base.requireParentSpan }

/-- The constructor: `super(..., { ...DEFAULT_CONFIG, ...config })`. -/
def knexConstructorConfig (config : KnexInstrumentationConfig) :
    KnexInstrumentationConfig :=
  spreadMergeConfig DEFAULT_CONFIG config

/-- `setConfig(config)`: `super.setConfig({ ...DEFAULT_CONFIG, ...config })`. -/
def knexSetConfig (config : KnexInstrumentationConfig) :
    KnexInstrumentationConfig :=
  spreadMergeConfig DEFAULT_CONFIG config

/-- Semantic-convention attribute key `SEMATTRS_DB_SYSTEM`. -/
def SEMATTRS_DB_SYSTEM : String := "db.system"

/-- Semantic-convention attribute key `SEMATTRS_DB_SQL_TABLE`. -/
def SEMATTRS_DB_SQL_TABLE : String := "db.sql.table"

/-- Semantic-convention attribute key `SEMATTRS_DB_OPERATION`. -/
def SEMATTRS_DB_OPERATION : String := "db.operation"

/-- Semantic-convention attribute key `SEMATTRS_DB_USER`. -/
def SEMATTRS_DB_USER : String := "db.user"

/-- Semantic-convention attribute key `SEMATTRS_DB_NAME`. -/
def SEMATTRS_DB_NAME : String := "db.name"

/-- Semantic-convention attribute key `SEMATTRS_NET_PEER_NAME`. -/
def SEMATTRS_NET_PEER_NAME : String := "net.peer.name"

/-- Semantic-convention attribute key `SEMATTRS_NET_PEER_PORT`. -/
def SEMATTRS_NET_PEER_PORT : String := "net.peer.port"

/-- Semantic-convention attribute key `SEMATTRS_NET_TRANSPORT`. -/
def SEMATTRS_NET_TRANSPORT : String := "net.transport"

/-- Semantic-convention attribute key `SEMATTRS_DB_STATEMENT`. -/
def SEMATTRS_DB_STATEMENT : String := "db.statement"

/-- JavaScript `a || b` on optional strings: `undefined` and the empty
string are falsy, so they fall through to `b`. -/
def jsOrStr : Option String → Option String → Option String
  | some s, b => if s = "" then b else some s
  | none, b => b

/-- Modelled from the spec: `utils.extractTableName` (utils.ts is not under
src/) introspects the builder's internal statement representation for the
primary table reference and yields nothing when it is absent or ambiguous
(§4.4, table attribute); modelled as reading the builder's stored table
state. -/
def extractTableName (builder : Builder) : Option String :=
  builder.tableName

/-- Modelled from the spec: `utils.mapSystem` (utils.ts is not under src/)
maps the client driver identifier to a normalized database-system name via
a fixed lookup table, passing unknown drivers through (§4.4, target-system
attribute; §8 example maps `sqlite3` to its normalized identifier). -/
def mapSystem (client : String) : String :=
  if client = "sqlite3" then "sqlite"
  else if client = "mysql" then "mysql"
  else if client = "pg" then "postgresql"
  else if client = "oracledb" then "oracle"
  else client

/-- Modelled from the spec: `utils.limitLength` (utils.ts is not under
src/) truncates the raw SQL text to at most the configured number of
characters (§4.4, statement-text attribute: character-count truncation). A
nullish SQL text stays nullish. -/
def limitLength (sql : Option String) (limit : Nat) : Option String :=
  sql.map (fun s => s.take limit)

/-- Modelled from the spec: `utils.getName` (utils.ts is not under src/)
formats the span display name from database name, operation and table,
omitting absent parts (§4.4, span display name). -/
def getName (db operation table : Option String) : String :=
  String.intercalate (" ") ([db, operation, table].filterMap id)

/-- Modelled from the spec: the formatter returned by `utils.getFormatter`
(utils.ts is not under src/) reconstructs the fully-interpolated SQL
statement the host embeds in its error messages, interpolating the binding
values into the statement placeholders (§4.5 step 6: "reconstructs that
exact interpolated string using the same formatting rule the host
applies"). -/
def interpolateChars : List Char → List String → List Char
  | [], _ => []
  | c :: cs, bs =>
    if c = '?' then (bs.headD ("?")).data ++ interpolateChars cs bs.tail
    else c :: interpolateChars cs bs

/-- String-level entry point of the modelled host SQL formatter. -/
def formatQuery (sql : String) (bindings : List String) : String :=
  ⟨interpolateChars sql.data bindings⟩

/-- First-occurrence removal on character lists: the recursion that
underlies JavaScript `String.prototype.replace(pattern, "")` with a string
pattern. -/
def listReplaceFirst (pat : List Char) : List Char → List Char
  | [] => if pat.isPrefixOf [] then List.drop pat.length [] else []
  | c :: cs =>
    if pat.isPrefixOf (c :: cs) then (c :: cs).drop pat.length
    else c :: listReplaceFirst pat cs

/-- JavaScript `s.replace(pat, "")` with a string pattern: removes the
first occurrence of `pat` from `s`, if any. -/
def jsReplaceFirst (s pat : String) : String :=
  ⟨listReplaceFirst pat.data s.data⟩

/-- Modelled from the spec: `utils.otelExceptionFromKnexError` (utils.ts is
not under src/) pairs the original error with the cleaned message for
`span.recordException` (§4.5 step 6). -/
def otelExceptionFromKnexError (err : Err) (message : String) :
    OtelException :=
  { errId := err.id, message := message }

/-- `attributes` as the tracing collaborator receives them from the span
start call: key order of the source object literal, each value still
optional exactly as the source computes it. -/
def buildRawAttributes (cfg : KnexInstrumentationConfig)
    (moduleVersion : Option String) (runner : Runner)
    (query : Option Query) : List (String × Option AttrVal) :=
  [("knex.version", moduleVersion.map AttrVal.str),
   (SEMATTRS_DB_SYSTEM, some (AttrVal.str (mapSystem runner.client.config.client))),
   (SEMATTRS_DB_SQL_TABLE, (extractTableName runner.builder).map AttrVal.str),
   (SEMATTRS_DB_OPERATION, (query.bind Query.method).map AttrVal.str),
   (SEMATTRS_DB_USER, (runner.client.config.connection.bind Connection.user).map AttrVal.str),
   (SEMATTRS_DB_NAME,
     (jsOrStr (runner.client.config.connection.bind Connection.filename)
       (runner.client.config.connection.bind Connection.database)).map AttrVal.str),
   (SEMATTRS_NET_PEER_NAME, (runner.client.config.connection.bind Connection.host).map AttrVal.str),
   (SEMATTRS_NET_PEER_PORT, (runner.client.config.connection.bind Connection.port).map AttrVal.num),
   (SEMATTRS_NET_TRANSPORT,
     if runner.client.config.connection.bind Connection.filename = some (":memory:")
     then some (AttrVal.str ("inproc")) else none)] ++
  (if (cfg.maxQueryLength.getD 0) ≠ 0 then
    [(SEMATTRS_DB_STATEMENT,
      (limitLength (query.map Query.sql) (cfg.maxQueryLength.getD 0)).map AttrVal.str)]
  else [])

/-- Modelled from the spec: the tracing collaborator omits attribute
entries whose value is undefined from the emitted attribute set rather
than recording them as null (§3: "absent/undefined values must be omitted
from the emitted attribute set, not sent as null"). -/
def emitAttributes (raw : List (String × Option AttrVal)) :
    List (String × AttrVal) :=
  raw.filterMap (fun kv => kv.2.map (fun v => (kv.1, v)))

/-- The emitted attribute set of one wrapped query invocation. -/
def buildAttributes (cfg : KnexInstrumentationConfig)
    (moduleVersion : Option String) (runner : Runner)
    (query : Option Query) : List (String × AttrVal) :=
  emitAttributes (buildRawAttributes cfg moduleVersion runner query)

/-- Lookup of an attribute key in an emitted attribute set. -/
def lookupAttr (k : String) (attrs : List (String × AttrVal)) :
    Option AttrVal :=
  (attrs.find? (fun kv => kv.1 == k)).map (fun kv => kv.2)

/-- `this.builder[contextSymbol] || api.context.active()`: the context
captured at builder creation, or the ambient context as fallback (a stored
context object is always truthy). -/
def resolveParentContext (runner : Runner) (ambient : Context) : Context :=
  (runner.builder.ctxProp.map ContextProp.value).getD ambient

/-- `parentSpan && api.trace.isSpanContextValid(parentSpan.spanContext())`. -/
def hasActiveParent (runner : Runner) (ambient : Context) : Bool :=
  match (resolveParentContext runner ambient).span with
  | some sc => sc.valid
  | none => false

/-- The short-circuit condition
`instrumentation._config.requireParentSpan && !hasActiveParent`
(an absent `requireParentSpan` is falsy). -/
def bypassesTracing (cfg : KnexInstrumentationConfig) (runner : Runner)
    (ambient : Context) : Bool :=
  (cfg.requireParentSpan.getD false) && !(hasActiveParent runner ambient)

/-- `api.trace.setSpan(api.context.active(), span)`: the context the
original method runs under on the traced path, carrying the new span's
valid span context. -/
def withNewSpanContext (ambient : Context) : Context :=
  { ambient with span := some { valid := true } }

/-- The span as `instrumentation.tracer.startSpan` creates it: display
name from `utils.getName`, CLIENT kind, the emitted attribute set, and the
resolved parent context. -/
def initialSpan (cfg : KnexInstrumentationConfig)
    (moduleVersion : Option String) (runner : Runner)
    (query : Option Query) (ambient : Context) : Span :=
  { name := getName
      (jsOrStr (runner.client.config.connection.bind Connection.filename)
        (runner.client.config.connection.bind Connection.database))
      (query.bind Query.method) (extractTableName runner.builder),
    kind := SpanKind.client,
    attributes := buildAttributes cfg moduleVersion runner query,
    parent := resolveParentContext runner ambient,
    exceptions := [],
    status := none,
    endCount := 0 }

/-- Message of the TypeError raised when the catch handler dereferences
`query.sql` on a nullish query descriptor. -/
def typeErrorReadingSql : String :=
  "TypeError: Cannot read properties of undefined (reading sql)"

/-- Message of the TypeError raised when the catch handler calls
`err.message.replace` although `err.message` is not a string. -/
def typeErrorReadingReplace : String :=
  "TypeError: Cannot read properties of undefined (reading replace)"

/-- The wrapped runner `query` method produced by `createQueryWrapper`.
Follows the source line by line: the attribute set is computed eagerly
(before the parent check), then either the short-circuit pass-through runs
the original under the unchanged ambient context, or a span is started as
a child of the resolved parent context and the original runs under the new
span's context; on resolution the span is ended, on rejection the catch
handler dereferences `query.sql` and `err.message` without guards, strips
the first occurrence of the interpolated-SQL-plus-separator from the
message for the span copy, records the cleaned exception and error status,
ends the span and re-throws the original error. -/
def wrappedQuery {α : Type} (cfg : KnexInstrumentationConfig)
    (moduleVersion : Option String) (runner : Runner)
    (query : Option Query) (ambient : Context)
    (original : Context → Except Err α) : QueryOutcome α :=
  if bypassesTracing cfg runner ambient then
    match original ambient with
    | Except.ok v =>
      { result := Except.ok v, spans := [], originalRunCtx := some ambient,
        trace := [QAction.computeAttributes, QAction.callOriginal, QAction.returnResult] }
    | Except.error e =>
      { result := Except.error (Thrown.original e), spans := [],
        originalRunCtx := some ambient,
        trace := [QAction.computeAttributes, QAction.callOriginal, QAction.throwOriginal] }
  else
    let span := initialSpan cfg moduleVersion runner query ambient
    match original (withNewSpanContext ambient) with
    | Except.ok v =>
      { result := Except.ok v,
        spans := [{ span with endCount := span.endCount + 1 }],
        originalRunCtx := some (withNewSpanContext ambient),
        trace := [QAction.computeAttributes, QAction.startSpan,
                  QAction.callOriginal, QAction.endSpan, QAction.returnResult] }
    | Except.error err =>
      match query with
      | none =>
        { result := Except.error (Thrown.handlerFailure typeErrorReadingSql),
          spans := [span],
          originalRunCtx := some (withNewSpanContext ambient),
          trace := [QAction.computeAttributes, QAction.startSpan,
                    QAction.callOriginal, QAction.throwHandlerError] }
      | some q =>
        match err.message with
        | none =>
          { result := Except.error (Thrown.handlerFailure typeErrorReadingReplace),
            spans := [span],
            originalRunCtx := some (withNewSpanContext ambient),
            trace := [QAction.computeAttributes, QAction.startSpan,
                      QAction.callOriginal, QAction.throwHandlerError] }
        | some msg =>
          let message :=
            jsReplaceFirst msg (formatQuery q.sql (q.bindings.getD []) ++ (" - "))
          { result := Except.error (Thrown.original err),
            spans := [{ span with
              exceptions := [otelExceptionFromKnexError err message],
              status := some { code := SpanStatusCode.error, message := message },
              endCount := span.endCount + 1 }],
            originalRunCtx := some (withNewSpanContext ambient),
            trace := [QAction.computeAttributes, QAction.startSpan,
                      QAction.callOriginal, QAction.recordException,
                      QAction.setStatus, QAction.endSpan, QAction.throwOriginal] }

/-- `Object.defineProperty(builder, contextSymbol, { value: ctx })`: only
`value` is given, so the JavaScript defaults make the property
non-enumerable, non-writable and non-configurable. -/
def defineContextProperty (builder : Builder) (ctx : Context) : Builder :=
  { builder with
    ctxProp := some
      { value := ctx, enumerable := false, writable := false,
        configurable := false } }

/-- The wrapper produced by `storeContext`: runs the original factory and,
on its returned builder, defines the hidden context property holding the
currently-active context; a throwing factory propagates before anything is
attached. -/
def storeContext (ambient : Context) (original : Except Err Builder) :
    Except Err Builder :=
  match original with
  | Except.error e => Except.error e
  | Except.ok builder => Except.ok (defineContextProperty builder ambient)

/-- A method slot on a host prototype: either the plain original function
or a shimmer-style wrapped function that remembers what it replaced. -/
inductive Method (F : Type) where
  | plain (f : F)
  | wrapped (f : F) (orig : Method F)
deriving DecidableEq

/-- Modelled from the spec: `isWrapped` of the instrumentation base
library detects the wrapped-marker on an intercepted method (§4.1). -/
def isWrappedMethod {F : Type} : Method F → Bool
  | Method.plain _ => false
  | Method.wrapped _ _ => true

/-- The currently installed callable of a method slot. -/
def currentFn {F : Type} : Method F → F
  | Method.plain f => f
  | Method.wrapped f _ => f

/-- Modelled from the spec: `_wrap` of the instrumentation base library
replaces the method with `wrapper(original)` and remembers the original
for restoration (§4.1). -/
def wrapMethod {F : Type} (m : Method F) (wrapper : F → F) : Method F :=
  Method.wrapped (wrapper (currentFn m)) m

/-- Modelled from the spec: `_unwrap` of the instrumentation base library
restores the remembered original of an intercepted method (§4.1); on an
unwrapped method it restores nothing. -/
def unwrapMethod {F : Type} : Method F → Method F
  | Method.plain f => Method.plain f
  | Method.wrapped _ orig => orig

/-- `ensureWrapped` from the source: if the current method carries the
wrapped-marker, first unwrap it, then wrap with the new wrapper. -/
def ensureWrapped {F : Type} (m : Method F) (wrapper : F → F) : Method F :=
  wrapMethod (if isWrappedMethod m then unwrapMethod m else m) wrapper

/-- The span end is observed strictly before the original error is
re-thrown in a trace. -/
def spanEndedBeforeThrow (tr : List QAction) : Prop :=
  ∃ i j, i < j ∧ tr.get? i = some QAction.endSpan ∧
    tr.get? j = some QAction.throwOriginal

/-! ## Helper lemmas -/

/-- A list is a `isPrefixOf`-prefix of itself followed by anything. -/
theorem isPrefixOf_self_append (p t : List Char) :
    p.isPrefixOf (p ++ t) = true := by
  induction p with
  | nil => simp [List.isPrefixOf]
  | cons a as ih => simp [List.isPrefixOf, ih]

/-- Removing the first occurrence of `p` from `p ++ t` leaves `t`. -/
theorem listReplaceFirst_self_append (p t : List Char) :
    listReplaceFirst p (p ++ t) = t := by
  cases h : p ++ t with
  | nil =>
    rcases List.append_eq_nil.mp h with ⟨hp, ht⟩
    subst hp; subst ht; rfl
  | cons c cs =>
    have hpre : p.isPrefixOf (c :: cs) = true := h ▸ isPrefixOf_self_append p t
    simp only [listReplaceFirst, hpre, if_true]
    rw [← h, List.drop_left]

/-- JavaScript `replace` with the pattern standing as a prefix removes
exactly that prefix. -/
theorem jsReplaceFirst_self_append (p t : String) :
    jsReplaceFirst (p ++ t) p = t := by
  show String.mk (listReplaceFirst p.data (p ++ t).data) = t
  rw [String.data_append, listReplaceFirst_self_append]

/-- Characterization of attribute lookup over the emitted set: the first
entry whose key matches and whose value is defined wins. -/
theorem lookupAttr_emit (k : String) (raw : List (String × Option AttrVal)) :
    lookupAttr k (emitAttributes raw) =
      (raw.find? (fun kv => kv.1 == k && kv.2.isSome)).bind Prod.snd := by
  induction raw with
  | nil => rfl
  | cons kv rest ih =>
    obtain ⟨k₁, o⟩ := kv
    cases o with
    | none =>
      simpa [emitAttributes, lookupAttr, List.filterMap_cons, List.find?]
        using ih
    | some v =>
      cases hkk : (k₁ == k) with
      | false =>
        simpa [emitAttributes, lookupAttr, List.filterMap_cons, List.find?, hkk]
          using ih
      | true =>
        simp [emitAttributes, lookupAttr, List.filterMap_cons, List.find?, hkk]

/-- On every non-bypass invocation exactly one span is created, and its
attribute set and parent are those computed up front. -/
theorem wrappedQuery_spans_eq {α : Type} (cfg : KnexInstrumentationConfig)
    (mv : Option String) (runner : Runner) (query : Option Query)
    (ambient : Context) (original : Context → Except Err α)
    (hb : bypassesTracing cfg runner ambient = false) :
    ∃ s : Span,
      (wrappedQuery cfg mv runner query ambient original).spans = [s] ∧
      s.attributes = buildAttributes cfg mv runner query ∧
      s.parent = resolveParentContext runner ambient := by
  unfold wrappedQuery
  rw [hb]
  simp only [Bool.false_eq_true, if_false]
  cases original (withNewSpanContext ambient) with
  | ok v => exact ⟨_, rfl, rfl, rfl⟩
  | error err =>
    cases query with
    | none => exact ⟨_, rfl, rfl, rfl⟩
    | some q =>
      dsimp only
      cases hm : err.message with
      | none => exact ⟨_, rfl, rfl, rfl⟩
      | some msg => exact ⟨_, rfl, rfl, rfl⟩

/-- Folding a state-oblivious update is running the last update. -/
theorem foldl_const {κ : Type} (g : κ → κ) (c0 : κ) (cs : List κ) :
    cs.foldl (fun _ c => g c) (g c0) = g (cs.getLastD c0) := by
  induction cs generalizing c0 with
  | nil => rfl
  | cons c cs ih =>
    show List.foldl (fun _ c => g c) (g c) cs = g ((c :: cs).getLastD c0)
    rw [List.getLastD_cons]
    exact ih c

/-- The statement-text attribute of the emitted set: present exactly when
the effective max query length is positive, valued at the truncated SQL. -/
theorem lookup_statement (cfg : KnexInstrumentationConfig)
    (mv : Option String) (runner : Runner) (q : Query) :
    lookupAttr SEMATTRS_DB_STATEMENT (buildAttributes cfg mv runner (some q)) =
      if 0 < cfg.maxQueryLength.getD 0
      then some (AttrVal.str (q.sql.take (cfg.maxQueryLength.getD 0)))
      else none := by
  rw [buildAttributes, lookupAttr_emit]
  by_cases hn : (cfg.maxQueryLength.getD 0) ≠ 0
  · simp [buildRawAttributes, hn, Nat.pos_of_ne_zero hn, limitLength,
      SEMATTRS_DB_SYSTEM, SEMATTRS_DB_SQL_TABLE, SEMATTRS_DB_OPERATION,
      SEMATTRS_DB_USER, SEMATTRS_DB_NAME, SEMATTRS_NET_PEER_NAME,
      SEMATTRS_NET_PEER_PORT, SEMATTRS_NET_TRANSPORT, SEMATTRS_DB_STATEMENT,
      List.find?]
  · have h0 : cfg.maxQueryLength.getD 0 = 0 := not_ne_iff.mp hn
    simp [buildRawAttributes, h0,
      SEMATTRS_DB_SYSTEM, SEMATTRS_DB_SQL_TABLE, SEMATTRS_DB_OPERATION,
      SEMATTRS_DB_USER, SEMATTRS_DB_NAME, SEMATTRS_NET_PEER_NAME,
      SEMATTRS_NET_PEER_PORT, SEMATTRS_NET_TRANSPORT, SEMATTRS_DB_STATEMENT,
      List.find?]

/-- The transport attribute of the emitted set: the in-process marker
exactly for the in-memory sentinel filename, absent otherwise. -/
theorem lookup_transport (cfg : KnexInstrumentationConfig)
    (mv : Option String) (runner : Runner) (query : Option Query) :
    lookupAttr SEMATTRS_NET_TRANSPORT (buildAttributes cfg mv runner query) =
      if runner.client.config.connection.bind Connection.filename = some (":memory:")
      then some (AttrVal.str ("inproc"))
      else none := by
  rw [buildAttributes, lookupAttr_emit]
  by_cases hf : runner.client.config.connection.bind Connection.filename = some (":memory:") <;>
    by_cases hn : (cfg.maxQueryLength.getD 0) ≠ 0 <;>
      simp [buildRawAttributes, hf, hn,
        SEMATTRS_DB_SYSTEM, SEMATTRS_DB_SQL_TABLE, SEMATTRS_DB_OPERATION,
        SEMATTRS_DB_USER, SEMATTRS_DB_NAME, SEMATTRS_NET_PEER_NAME,
        SEMATTRS_NET_PEER_PORT, SEMATTRS_NET_TRANSPORT, SEMATTRS_DB_STATEMENT,
        List.find?]

/-- An absent table reference is omitted from the emitted set. -/
theorem lookup_table_none (cfg : KnexInstrumentationConfig)
    (mv : Option String) (runner : Runner) (query : Option Query)
    (h : extractTableName runner.builder = none) :
    lookupAttr SEMATTRS_DB_SQL_TABLE (buildAttributes cfg mv runner query) = none := by
  rw [buildAttributes, lookupAttr_emit]
  by_cases hn : (cfg.maxQueryLength.getD 0) ≠ 0 <;>
    simp [buildRawAttributes, h, hn,
      SEMATTRS_DB_SYSTEM, SEMATTRS_DB_SQL_TABLE, SEMATTRS_DB_OPERATION,
      SEMATTRS_DB_USER, SEMATTRS_DB_NAME, SEMATTRS_NET_PEER_NAME,
      SEMATTRS_NET_PEER_PORT, SEMATTRS_NET_TRANSPORT, SEMATTRS_DB_STATEMENT,
      List.find?]

/-- An absent operation name is omitted from the emitted set. -/
theorem lookup_operation_none (cfg : KnexInstrumentationConfig)
    (mv : Option String) (runner : Runner) (query : Option Query)
    (h : query.bind Query.method = none) :
    lookupAttr SEMATTRS_DB_OPERATION (buildAttributes cfg mv runner query) = none := by
  rw [buildAttributes, lookupAttr_emit]
  by_cases hn : (cfg.maxQueryLength.getD 0) ≠ 0 <;>
    simp [buildRawAttributes, h, hn,
      SEMATTRS_DB_SYSTEM, SEMATTRS_DB_SQL_TABLE, SEMATTRS_DB_OPERATION,
      SEMATTRS_DB_USER, SEMATTRS_DB_NAME, SEMATTRS_NET_PEER_NAME,
      SEMATTRS_NET_PEER_PORT, SEMATTRS_NET_TRANSPORT, SEMATTRS_DB_STATEMENT,
      List.find?]

/-- An absent connection user is omitted from the emitted set. -/
theorem lookup_user_none (cfg : KnexInstrumentationConfig)
    (mv : Option String) (runner : Runner) (query : Option Query)
    (h : runner.client.config.connection.bind Connection.user = none) :
    lookupAttr SEMATTRS_DB_USER (buildAttributes cfg mv runner query) = none := by
  rw [buildAttributes, lookupAttr_emit]
  by_cases hn : (cfg.maxQueryLength.getD 0) ≠ 0 <;>
    simp [buildRawAttributes, h, hn,
      SEMATTRS_DB_SYSTEM, SEMATTRS_DB_SQL_TABLE, SEMATTRS_DB_OPERATION,
      SEMATTRS_DB_USER, SEMATTRS_DB_NAME, SEMATTRS_NET_PEER_NAME,
      SEMATTRS_NET_PEER_PORT, SEMATTRS_NET_TRANSPORT, SEMATTRS_DB_STATEMENT,
      List.find?]

/-- An absent database name (no filename and no database) is omitted from
the emitted set. -/
theorem lookup_dbname_none (cfg : KnexInstrumentationConfig)
    (mv : Option String) (runner : Runner) (query : Option Query)
    (h : jsOrStr (runner.client.config.connection.bind Connection.filename)
      (runner.client.config.connection.bind Connection.database) = none) :
    lookupAttr SEMATTRS_DB_NAME (buildAttributes cfg mv runner query) = none := by
  rw [buildAttributes, lookupAttr_emit]
  by_cases hn : (cfg.maxQueryLength.getD 0) ≠ 0 <;>
    simp [buildRawAttributes, h, hn,
      SEMATTRS_DB_SYSTEM, SEMATTRS_DB_SQL_TABLE, SEMATTRS_DB_OPERATION,
      SEMATTRS_DB_USER, SEMATTRS_DB_NAME, SEMATTRS_NET_PEER_NAME,
      SEMATTRS_NET_PEER_PORT, SEMATTRS_NET_TRANSPORT, SEMATTRS_DB_STATEMENT,
      List.find?]

/-- An absent connection host is omitted from the emitted set. -/
theorem lookup_host_none (cfg : KnexInstrumentationConfig)
    (mv : Option String) (runner : Runner) (query : Option Query)
    (h : runner.client.config.connection.bind Connection.host = none) :
    lookupAttr SEMATTRS_NET_PEER_NAME (buildAttributes cfg mv runner query) = none := by
  rw [buildAttributes, lookupAttr_emit]
  by_cases hn : (cfg.maxQueryLength.getD 0) ≠ 0 <;>
    simp [buildRawAttributes, h, hn,
      SEMATTRS_DB_SYSTEM, SEMATTRS_DB_SQL_TABLE, SEMATTRS_DB_OPERATION,
      SEMATTRS_DB_USER, SEMATTRS_DB_NAME, SEMATTRS_NET_PEER_NAME,
      SEMATTRS_NET_PEER_PORT, SEMATTRS_NET_TRANSPORT, SEMATTRS_DB_STATEMENT,
      List.find?]

/-- An absent connection port is omitted from the emitted set. -/
theorem lookup_port_none (cfg : KnexInstrumentationConfig)
    (mv : Option String) (runner : Runner) (query : Option Query)
    (h : runner.client.config.connection.bind Connection.port = none) :
    lookupAttr SEMATTRS_NET_PEER_PORT (buildAttributes cfg mv runner query) = none := by
  rw [buildAttributes, lookupAttr_emit]
  by_cases hn : (cfg.maxQueryLength.getD 0) ≠ 0 <;>
    simp [buildRawAttributes, h, hn,
      SEMATTRS_DB_SYSTEM, SEMATTRS_DB_SQL_TABLE, SEMATTRS_DB_OPERATION,
      SEMATTRS_DB_USER, SEMATTRS_DB_NAME, SEMATTRS_NET_PEER_NAME,
      SEMATTRS_NET_PEER_PORT, SEMATTRS_NET_TRANSPORT, SEMATTRS_DB_STATEMENT,
      List.find?]

/-- Restoring then rewrapping preserves what a single unwrap recovers. -/
theorem unwrap_ensureWrapped {F : Type} (m : Method F) (w : F → F) (f : F)
    (h : unwrapMethod m = Method.plain f) :
    unwrapMethod (ensureWrapped m w) = Method.plain f := by
  cases m with
  | plain g =>
    simpa [ensureWrapped, isWrappedMethod, wrapMethod, unwrapMethod] using h
  | wrapped c orig =>
    simpa [ensureWrapped, isWrappedMethod, wrapMethod, unwrapMethod] using h

/-- Any chain of `ensureWrapped` applications keeps the plain original one
unwrap away. -/
theorem unwrap_foldl_ensureWrapped {F : Type} (f : F) (ws : List (F → F)) :
    ∀ m : Method F, unwrapMethod m = Method.plain f →
      unwrapMethod (ws.foldl ensureWrapped m) = Method.plain f := by
  induction ws with
  | nil => intro m h; exact h
  | cons w ws ih => intro m h; exact ih _ (unwrap_ensureWrapped m w f h)

/-! ## Claim theorems -/

/-- C7: every configuration passed to the constructor or to `setConfig` is
merged over the defaults `maxQueryLength = 1022`, `requireParentSpan =
false`; after any sequence of reconfigurations both recognized options
have a defined value, namely the last caller value over the defaults. -/
theorem c7_config_remerges_defaults (c0 : KnexInstrumentationConfig)
    (cs : List KnexInstrumentationConfig) :
    (cs.foldl (fun _ c => knexSetConfig c) (knexConstructorConfig c0)).maxQueryLength
        = some ((cs.getLastD c0).maxQueryLength.getD 1022) ∧
    (cs.foldl (fun _ c => knexSetConfig c) (knexConstructorConfig c0)).requireParentSpan
        = some ((cs.getLastD c0).requireParentSpan.getD false) := by
  have h2 : cs.foldl (fun _ c => knexSetConfig c) (knexConstructorConfig c0)
      = knexSetConfig (cs.getLastD c0) := foldl_const knexSetConfig c0 cs
  rw [h2]
  obtain ⟨mq, rp⟩ := cs.getLastD c0
  constructor <;> cases mq <;> cases rp <;> rfl

/-- C8: `ensureWrapped` first restores a wrapped method before applying the
new wrapper, so any number of `ensureWrapped` applications followed by one
unwrap leaves exactly the original unwrapped method installed. -/
theorem c8_ensure_wrapped_no_double_wrap {F : Type} (f : F)
    (ws : List (F → F)) (c : F) (m : Method F) (w : F → F) :
    unwrapMethod (ws.foldl ensureWrapped (Method.plain f)) = Method.plain f ∧
    ensureWrapped (Method.wrapped c m) w
        = wrapMethod (unwrapMethod (Method.wrapped c m)) w ∧
    ensureWrapped (Method.plain f) w = wrapMethod (Method.plain f) w :=
  ⟨unwrap_foldl_ensureWrapped f ws (Method.plain f) rfl, rfl, rfl⟩

/-- C10: the context-capturing wrapper returns the builder produced by the
original factory itself — same identity, same remaining state — with only
the hidden context property added; a throwing factory propagates unchanged
and nothing is attached. -/
theorem c10_store_context_frame (ambient : Context) (b0 : Builder) (e : Err) :
    storeContext ambient (Except.ok b0) = Except.ok
      { b0 with ctxProp := some ⟨ambient, false, false, false⟩ } ∧
    (defineContextProperty b0 ambient).oid = b0.oid ∧
    (defineContextProperty b0 ambient).tableName = b0.tableName ∧
    storeContext ambient (Except.error e) = Except.error e :=
  ⟨rfl, rfl, rfl, rfl⟩

/-- C2 (counterexample): on a concrete bypassed execution
(`requireParentSpan` true, no parent span anywhere) no span is created,
yet the attribute computation step still runs — the source builds the
attribute object before the parent check — refuting the claim's
"performing no attribute computation". -/
theorem c2_counterexample :
    (wrappedQuery ⟨some 1022, some true⟩ none
        ⟨⟨⟨("sqlite3"), none⟩⟩, ⟨1, none, none⟩⟩
        (some ⟨("select 1"), none, some ("select")⟩) ⟨0, none⟩
        (fun _ => Except.ok (0 : Nat))).spans = [] ∧
    QAction.computeAttributes ∈
      (wrappedQuery ⟨some 1022, some true⟩ none
        ⟨⟨⟨("sqlite3"), none⟩⟩, ⟨1, none, none⟩⟩
        (some ⟨("select 1"), none, some ("select")⟩) ⟨0, none⟩
        (fun _ => Except.ok (0 : Nat))).trace := by
  constructor
  · rfl
  · decide

/-- C2 (amended): with `requireParentSpan` set and no valid parent span in
the resolved context, the wrapper calls the original method under the
unchanged ambient context and returns its result or rejection unmodified,
creating no span; attribute values are computed beforehand but discarded. -/
theorem c2_bypass_passthrough {α : Type} (cfg : KnexInstrumentationConfig)
    (mv : Option String) (runner : Runner) (query : Option Query)
    (ambient : Context) (original : Context → Except Err α)
    (hreq : cfg.requireParentSpan.getD false = true)
    (hnp : hasActiveParent runner ambient = false) :
    (wrappedQuery cfg mv runner query ambient original).result
        = (original ambient).mapError Thrown.original ∧
    (wrappedQuery cfg mv runner query ambient original).spans = [] ∧
    (wrappedQuery cfg mv runner query ambient original).originalRunCtx
        = some ambient := by
  have hb : bypassesTracing cfg runner ambient = true := by
    simp [bypassesTracing, hreq, hnp]
  unfold wrappedQuery
  rw [hb]
  cases ho : original ambient <;> simp [Except.mapError]

/-- C2 witness: the amended theorem at a concrete bypassed execution. -/
theorem c2_witness :
    ((⟨some 1022, some true⟩ : KnexInstrumentationConfig).requireParentSpan.getD false
        = true) ∧
    hasActiveParent ⟨⟨⟨("sqlite3"), none⟩⟩, ⟨1, none, none⟩⟩ ⟨0, none⟩ = false ∧
    ((wrappedQuery ⟨some 1022, some true⟩ none
        ⟨⟨⟨("sqlite3"), none⟩⟩, ⟨1, none, none⟩⟩ none ⟨0, none⟩
        (fun _ => Except.error ⟨4, some ("boom")⟩) : QueryOutcome Nat).result
        = (Except.error ⟨4, some ("boom")⟩ : Except Err Nat).mapError Thrown.original ∧
     (wrappedQuery ⟨some 1022, some true⟩ none
        ⟨⟨⟨("sqlite3"), none⟩⟩, ⟨1, none, none⟩⟩ none ⟨0, none⟩
        (fun _ => Except.error ⟨4, some ("boom")⟩) : QueryOutcome Nat).spans = [] ∧
     (wrappedQuery ⟨some 1022, some true⟩ none
        ⟨⟨⟨("sqlite3"), none⟩⟩, ⟨1, none, none⟩⟩ none ⟨0, none⟩
        (fun _ => Except.error ⟨4, some ("boom")⟩) : QueryOutcome Nat).originalRunCtx
        = some ⟨0, none⟩) :=
  ⟨by decide, by decide,
    c2_bypass_passthrough ⟨some 1022, some true⟩ none
      ⟨⟨⟨("sqlite3"), none⟩⟩, ⟨1, none, none⟩⟩ none ⟨0, none⟩
      (fun _ => Except.error ⟨4, some ("boom")⟩) (by decide) (by decide)⟩

/-- C3 (counterexample): with `requireParentSpan=false`, a rejection
arriving while the query descriptor is nullish makes the catch handler
fail before `span.end()`: the single created span is never ended,
refuting "that span is ended exactly once ... on the error path". -/
theorem c3_counterexample :
    ((wrappedQuery ⟨some 1022, some false⟩ none
        ⟨⟨⟨("sqlite3"), none⟩⟩, ⟨1, none, none⟩⟩ none ⟨0, none⟩
        (fun _ => Except.error ⟨7, some ("boom")⟩) : QueryOutcome Nat).spans.map
          Span.endCount = [0]) := by
  decide

/-- C3 (amended): with `requireParentSpan=false`, exactly one span is
created and it is ended exactly once on the success path and on every
error path on which the catch handler completes (query descriptor present
and the error's message a string); when the catch handler itself fails the
span is left unended. -/
theorem c3_span_lifecycle {α : Type} (cfg : KnexInstrumentationConfig)
    (mv : Option String) (runner : Runner) (query : Option Query)
    (ambient : Context) (original : Context → Except Err α)
    (hreq : cfg.requireParentSpan.getD false = false)
    (hcomplete : ∀ e : Err, original (withNewSpanContext ambient) = Except.error e →
      (∃ q0, query = some q0) ∧ (∃ m0, e.message = some m0)) :
    (wrappedQuery cfg mv runner query ambient original).spans.map Span.endCount
      = [1] := by
  have hb : bypassesTracing cfg runner ambient = false := by
    simp [bypassesTracing, hreq]
  unfold wrappedQuery
  rw [hb]
  simp only [Bool.false_eq_true, if_false]
  cases ho : original (withNewSpanContext ambient) with
  | ok v => simp [initialSpan]
  | error e =>
    obtain ⟨⟨q0, hq⟩, ⟨m0, hm⟩⟩ := hcomplete e ho
    subst hq
    dsimp only
    rw [hm]
    simp [initialSpan]

/-- C3 witness: the amended theorem at a concrete successful execution. -/
theorem c3_witness :
    ((⟨some 1022, some false⟩ : KnexInstrumentationConfig).requireParentSpan.getD false
        = false) ∧
    ((wrappedQuery ⟨some 1022, some false⟩ none
        ⟨⟨⟨("sqlite3"), none⟩⟩, ⟨1, none, none⟩⟩
        (some ⟨("select 1"), none, some ("select")⟩) ⟨0, none⟩
        (fun _ => Except.ok (5 : Nat))).spans.map Span.endCount = [1]) :=
  ⟨by decide,
    c3_span_lifecycle ⟨some 1022, some false⟩ none
      ⟨⟨⟨("sqlite3"), none⟩⟩, ⟨1, none, none⟩⟩
      (some ⟨("select 1"), none, some ("select")⟩) ⟨0, none⟩
      (fun _ => Except.ok (5 : Nat)) (by decide)
      (fun e h => Except.noConfusion h)⟩

/-- C4: a builder-factory wrapper attaches the creation-time context to the
builder as a non-enumerable, non-writable property (JavaScript
`defineProperty` defaults), leaves the builder otherwise unchanged, and a
later execution under a different ambient context parents the span at the
captured context; without a captured context the ambient context is the
fallback parent. -/
theorem c4_builder_context_capture {α : Type} (b0 bf : Builder)
    (c1 c2 : Context) (cfg : KnexInstrumentationConfig) (mv : Option String)
    (cc : Client) (query : Option Query) (original : Context → Except Err α)
    (hreq : cfg.requireParentSpan.getD false = false)
    (hbf : bf.ctxProp = none) :
    storeContext c1 (Except.ok b0)
        = Except.ok { b0 with ctxProp := some ⟨c1, false, false, false⟩ } ∧
    (wrappedQuery cfg mv
        ⟨cc, { b0 with ctxProp := some ⟨c1, false, false, false⟩ }⟩
        query c2 original).spans.map Span.parent = [c1] ∧
    (wrappedQuery cfg mv ⟨cc, bf⟩ query c2 original).spans.map Span.parent
        = [c2] := by
  refine ⟨rfl, ?_, ?_⟩
  · have hb : bypassesTracing cfg
        ⟨cc, { b0 with ctxProp := some ⟨c1, false, false, false⟩ }⟩ c2 = false := by
      simp [bypassesTracing, hreq]
    obtain ⟨s, hs, _, hp⟩ := wrappedQuery_spans_eq cfg mv _ query c2 original hb
    rw [hs]
    simp only [List.map_cons, List.map_nil]
    rw [hp]
    simp [resolveParentContext]
  · have hb : bypassesTracing cfg ⟨cc, bf⟩ c2 = false := by
      simp [bypassesTracing, hreq]
    obtain ⟨s, hs, _, hp⟩ := wrappedQuery_spans_eq cfg mv _ query c2 original hb
    rw [hs]
    simp only [List.map_cons, List.map_nil]
    rw [hp]
    simp [resolveParentContext, hbf]

/-- C4 witness: the theorem at concrete builders and contexts. -/
theorem c4_witness :
    ((⟨some 1022, some false⟩ : KnexInstrumentationConfig).requireParentSpan.getD false
        = false) ∧
    ((⟨2, none, none⟩ : Builder).ctxProp = none) ∧
    (storeContext ⟨1, none⟩ (Except.ok ⟨1, none, none⟩)
        = Except.ok { (⟨1, none, none⟩ : Builder) with
            ctxProp := some ⟨⟨1, none⟩, false, false, false⟩ } ∧
     (wrappedQuery ⟨some 1022, some false⟩ none
        ⟨⟨⟨("sqlite3"), none⟩⟩, { (⟨1, none, none⟩ : Builder) with
            ctxProp := some ⟨⟨1, none⟩, false, false, false⟩ }⟩
        none ⟨2, none⟩ (fun _ => Except.ok (0 : Nat))).spans.map Span.parent
        = [⟨1, none⟩] ∧
     (wrappedQuery ⟨some 1022, some false⟩ none
        ⟨⟨⟨("sqlite3"), none⟩⟩, ⟨2, none, none⟩⟩ none ⟨2, none⟩
        (fun _ => Except.ok (0 : Nat))).spans.map Span.parent = [⟨2, none⟩]) :=
  ⟨by decide, by decide,
    c4_builder_context_capture ⟨1, none, none⟩ ⟨2, none, none⟩ ⟨1, none⟩
      ⟨2, none⟩ ⟨some 1022, some false⟩ none ⟨⟨("sqlite3"), none⟩⟩ none
      (fun _ => Except.ok (0 : Nat)) (by decide) (by decide)⟩

/-- C5: on every traced execution with a query descriptor, the span's
statement attribute is present exactly when the effective max query length
is positive, valued at the SQL text truncated to at most that many
characters; a zero or absent max length omits the attribute entirely. -/
theorem c5_statement_attribute {α : Type} (cfg : KnexInstrumentationConfig)
    (mv : Option String) (runner : Runner) (ambient : Context) (q : Query)
    (original : Context → Except Err α)
    (hb : bypassesTracing cfg runner ambient = false) :
    (wrappedQuery cfg mv runner (some q) ambient original).spans.map
        (fun s => lookupAttr SEMATTRS_DB_STATEMENT s.attributes)
      = [if 0 < cfg.maxQueryLength.getD 0
         then some (AttrVal.str (q.sql.take (cfg.maxQueryLength.getD 0)))
         else none] := by
  obtain ⟨s, hs, hattr, _⟩ :=
    wrappedQuery_spans_eq cfg mv runner (some q) ambient original hb
  rw [hs]
  simp only [List.map_cons, List.map_nil]
  rw [hattr, lookup_statement]

/-- C5 witness: the theorem at concrete inputs, `maxQueryLength = 5`
truncating an 8-character statement. -/
theorem c5_witness :
    bypassesTracing ⟨some 5, some false⟩
        ⟨⟨⟨("sqlite3"), none⟩⟩, ⟨1, none, none⟩⟩ ⟨0, none⟩ = false ∧
    (wrappedQuery ⟨some 5, some false⟩ none
        ⟨⟨⟨("sqlite3"), none⟩⟩, ⟨1, none, none⟩⟩
        (some ⟨("select 1"), none, some ("select")⟩) ⟨0, none⟩
        (fun _ => Except.ok (0 : Nat))).spans.map
        (fun s => lookupAttr SEMATTRS_DB_STATEMENT s.attributes)
      = [if 0 < (⟨some 5, some false⟩ : KnexInstrumentationConfig).maxQueryLength.getD 0
         then some (AttrVal.str (("select 1").take
           ((⟨some 5, some false⟩ : KnexInstrumentationConfig).maxQueryLength.getD 0)))
         else none] :=
  ⟨by decide,
    c5_statement_attribute ⟨some 5, some false⟩ none
      ⟨⟨⟨("sqlite3"), none⟩⟩, ⟨1, none, none⟩⟩ ⟨0, none⟩
      ⟨("select 1"), none, some ("select")⟩
      (fun _ => Except.ok (0 : Nat)) (by decide)⟩

/-- C6: on every traced execution the span's transport attribute is the
in-process marker exactly when the connection filename is the in-memory
sentinel and is absent otherwise, and absent values of the other derived
attributes (table, operation, user, database name, peer host, peer port)
are omitted from the emitted attribute set rather than recorded. -/
theorem c6_transport_and_absent_omitted {α : Type}
    (cfg : KnexInstrumentationConfig) (mv : Option String) (runner : Runner)
    (query : Option Query) (ambient : Context)
    (original : Context → Except Err α)
    (hb : bypassesTracing cfg runner ambient = false) :
    (wrappedQuery cfg mv runner query ambient original).spans.map
        (fun s => lookupAttr SEMATTRS_NET_TRANSPORT s.attributes)
      = [if runner.client.config.connection.bind Connection.filename
            = some (":memory:")
         then some (AttrVal.str ("inproc")) else none] ∧
    (extractTableName runner.builder = none →
      (wrappedQuery cfg mv runner query ambient original).spans.map
          (fun s => lookupAttr SEMATTRS_DB_SQL_TABLE s.attributes) = [none]) ∧
    (query.bind Query.method = none →
      (wrappedQuery cfg mv runner query ambient original).spans.map
          (fun s => lookupAttr SEMATTRS_DB_OPERATION s.attributes) = [none]) ∧
    (runner.client.config.connection.bind Connection.user = none →
      (wrappedQuery cfg mv runner query ambient original).spans.map
          (fun s => lookupAttr SEMATTRS_DB_USER s.attributes) = [none]) ∧
    (jsOrStr (runner.client.config.connection.bind Connection.filename)
        (runner.client.config.connection.bind Connection.database) = none →
      (wrappedQuery cfg mv runner query ambient original).spans.map
          (fun s => lookupAttr SEMATTRS_DB_NAME s.attributes) = [none]) ∧
    (runner.client.config.connection.bind Connection.host = none →
      (wrappedQuery cfg mv runner query ambient original).spans.map
          (fun s => lookupAttr SEMATTRS_NET_PEER_NAME s.attributes) = [none]) ∧
    (runner.client.config.connection.bind Connection.port = none →
      (wrappedQuery cfg mv runner query ambient original).spans.map
          (fun s => lookupAttr SEMATTRS_NET_PEER_PORT s.attributes) = [none]) := by
  obtain ⟨s, hs, hattr, _⟩ :=
    wrappedQuery_spans_eq cfg mv runner query ambient original hb
  refine ⟨?_, fun h => ?_, fun h => ?_, fun h => ?_, fun h => ?_,
    fun h => ?_, fun h => ?_⟩ <;>
    (rw [hs]; simp only [List.map_cons, List.map_nil]; rw [hattr])
  · rw [lookup_transport]
  · rw [lookup_table_none cfg mv runner query h]
  · rw [lookup_operation_none cfg mv runner query h]
  · rw [lookup_user_none cfg mv runner query h]
  · rw [lookup_dbname_none cfg mv runner query h]
  · rw [lookup_host_none cfg mv runner query h]
  · rw [lookup_port_none cfg mv runner query h]

/-- C6 witness: the theorem at a concrete connection-less environment,
where every optional attribute source is absent. -/
theorem c6_witness :
    bypassesTracing ⟨some 1022, some false⟩
        ⟨⟨⟨("sqlite3"), none⟩⟩, ⟨1, none, none⟩⟩ ⟨0, none⟩ = false ∧
    ((wrappedQuery ⟨some 1022, some false⟩ none
        ⟨⟨⟨("sqlite3"), none⟩⟩, ⟨1, none, none⟩⟩ none ⟨0, none⟩
        (fun _ => Except.ok (0 : Nat))).spans.map
        (fun s => lookupAttr SEMATTRS_NET_TRANSPORT s.attributes)
      = [if (⟨⟨⟨("sqlite3"), none⟩⟩, ⟨1, none, none⟩⟩ :
            Runner).client.config.connection.bind Connection.filename
            = some (":memory:")
         then some (AttrVal.str ("inproc")) else none] ∧
     (extractTableName (⟨1, none, none⟩ : Builder) = none →
      (wrappedQuery ⟨some 1022, some false⟩ none
        ⟨⟨⟨("sqlite3"), none⟩⟩, ⟨1, none, none⟩⟩ none ⟨0, none⟩
        (fun _ => Except.ok (0 : Nat))).spans.map
          (fun s => lookupAttr SEMATTRS_DB_SQL_TABLE s.attributes) = [none]) ∧
     ((none : Option Query).bind Query.method = none →
      (wrappedQuery ⟨some 1022, some false⟩ none
        ⟨⟨⟨("sqlite3"), none⟩⟩, ⟨1, none, none⟩⟩ none ⟨0, none⟩
        (fun _ => Except.ok (0 : Nat))).spans.map
          (fun s => lookupAttr SEMATTRS_DB_OPERATION s.attributes) = [none]) ∧
     ((⟨⟨⟨("sqlite3"), none⟩⟩, ⟨1, none, none⟩⟩ :
          Runner).client.config.connection.bind Connection.user = none →
      (wrappedQuery ⟨some 1022, some false⟩ none
        ⟨⟨⟨("sqlite3"), none⟩⟩, ⟨1, none, none⟩⟩ none ⟨0, none⟩
        (fun _ => Except.ok (0 : Nat))).spans.map
          (fun s => lookupAttr SEMATTRS_DB_USER s.attributes) = [none]) ∧
     (jsOrStr ((⟨⟨⟨("sqlite3"), none⟩⟩, ⟨1, none, none⟩⟩ :
            Runner).client.config.connection.bind Connection.filename)
        ((⟨⟨⟨("sqlite3"), none⟩⟩, ⟨1, none, none⟩⟩ :
            Runner).client.config.connection.bind Connection.database) = none →
      (wrappedQuery ⟨some 1022, some false⟩ none
        ⟨⟨⟨("sqlite3"), none⟩⟩, ⟨1, none, none⟩⟩ none ⟨0, none⟩
        (fun _ => Except.ok (0 : Nat))).spans.map
          (fun s => lookupAttr SEMATTRS_DB_NAME s.attributes) = [none]) ∧
     ((⟨⟨⟨("sqlite3"), none⟩⟩, ⟨1, none, none⟩⟩ :
          Runner).client.config.connection.bind Connection.host = none →
      (wrappedQuery ⟨some 1022, some false⟩ none
        ⟨⟨⟨("sqlite3"), none⟩⟩, ⟨1, none, none⟩⟩ none ⟨0, none⟩
        (fun _ => Except.ok (0 : Nat))).spans.map
          (fun s => lookupAttr SEMATTRS_NET_PEER_NAME s.attributes) = [none]) ∧
     ((⟨⟨⟨("sqlite3"), none⟩⟩, ⟨1, none, none⟩⟩ :
          Runner).client.config.connection.bind Connection.port = none →
      (wrappedQuery ⟨some 1022, some false⟩ none
        ⟨⟨⟨("sqlite3"), none⟩⟩, ⟨1, none, none⟩⟩ none ⟨0, none⟩
        (fun _ => Except.ok (0 : Nat))).spans.map
          (fun s => lookupAttr SEMATTRS_NET_PEER_PORT s.attributes) = [none])) :=
  ⟨by decide,
    c6_transport_and_absent_omitted ⟨some 1022, some false⟩ none
      ⟨⟨⟨("sqlite3"), none⟩⟩, ⟨1, none, none⟩⟩ none ⟨0, none⟩
      (fun _ => Except.ok (0 : Nat)) (by decide)⟩

/-- C1: on every traced execution whose rejection message carries the
interpolated-SQL-plus-separator prefix, the caller receives the original
error object unmodified, while the span records the exception and error
status with exactly that prefix stripped, and the span end is observed
before the error is re-thrown. -/
theorem c1_rethrow_original_sanitize_span {α : Type}
    (cfg : KnexInstrumentationConfig) (mv : Option String) (runner : Runner)
    (ambient : Context) (q : Query) (err : Err) (rest : String)
    (original : Context → Except Err α)
    (hb : bypassesTracing cfg runner ambient = false)
    (horig : original (withNewSpanContext ambient) = Except.error err)
    (hmsg : err.message =
      some ((formatQuery q.sql (q.bindings.getD []) ++ (" - ")) ++ rest)) :
    (wrappedQuery cfg mv runner (some q) ambient original).result
        = Except.error (Thrown.original err) ∧
    (wrappedQuery cfg mv runner (some q) ambient original).spans.map
        (fun s => (s.exceptions, s.status, s.endCount))
      = [([{ errId := err.id, message := rest }],
          some { code := SpanStatusCode.error, message := rest }, 1)] ∧
    (wrappedQuery cfg mv runner (some q) ambient original).trace
      = [QAction.computeAttributes, QAction.startSpan, QAction.callOriginal,
         QAction.recordException, QAction.setStatus, QAction.endSpan,
         QAction.throwOriginal] ∧
    spanEndedBeforeThrow
      (wrappedQuery cfg mv runner (some q) ambient original).trace := by
  unfold wrappedQuery
  rw [hb]
  simp only [Bool.false_eq_true, if_false]
  rw [horig]
  dsimp only
  rw [hmsg]
  dsimp only
  rw [jsReplaceFirst_self_append]
  refine ⟨rfl, ?_, rfl, ?_⟩
  · simp [otelExceptionFromKnexError, initialSpan]
  · exact ⟨5, 6, by decide, rfl, rfl⟩

/-- C1 witness: the theorem at a concrete rejected query whose message is
the interpolated statement, the separator, then the bare message. -/
theorem c1_witness :
    bypassesTracing ⟨some 1022, some false⟩
        ⟨⟨⟨("sqlite3"), none⟩⟩, ⟨1, none, none⟩⟩ ⟨0, none⟩ = false ∧
    ((⟨3, some ("select 7 - boom")⟩ : Err).message =
      some ((formatQuery ("select ?") ((⟨("select ?"), some [("7")], some ("select")⟩ :
        Query).bindings.getD []) ++ (" - ")) ++ ("boom"))) ∧
    ((wrappedQuery ⟨some 1022, some false⟩ none
        ⟨⟨⟨("sqlite3"), none⟩⟩, ⟨1, none, none⟩⟩
        (some ⟨("select ?"), some [("7")], some ("select")⟩) ⟨0, none⟩
        (fun _ => Except.error ⟨3, some ("select 7 - boom")⟩) :
          QueryOutcome Nat).result
        = Except.error (Thrown.original ⟨3, some ("select 7 - boom")⟩) ∧
     (wrappedQuery ⟨some 1022, some false⟩ none
        ⟨⟨⟨("sqlite3"), none⟩⟩, ⟨1, none, none⟩⟩
        (some ⟨("select ?"), some [("7")], some ("select")⟩) ⟨0, none⟩
        (fun _ => Except.error ⟨3, some ("select 7 - boom")⟩) :
          QueryOutcome Nat).spans.map
        (fun s => (s.exceptions, s.status, s.endCount))
      = [([{ errId := 3, message := ("boom") }],
          some { code := SpanStatusCode.error, message := ("boom") }, 1)] ∧
     (wrappedQuery ⟨some 1022, some false⟩ none
        ⟨⟨⟨("sqlite3"), none⟩⟩, ⟨1, none, none⟩⟩
        (some ⟨("select ?"), some [("7")], some ("select")⟩) ⟨0, none⟩
        (fun _ => Except.error ⟨3, some ("select 7 - boom")⟩) :
          QueryOutcome Nat).trace
      = [QAction.computeAttributes, QAction.startSpan, QAction.callOriginal,
         QAction.recordException, QAction.setStatus, QAction.endSpan,
         QAction.throwOriginal] ∧
     spanEndedBeforeThrow
      (wrappedQuery ⟨some 1022, some false⟩ none
        ⟨⟨⟨("sqlite3"), none⟩⟩, ⟨1, none, none⟩⟩
        (some ⟨("select ?"), some [("7")], some ("select")⟩) ⟨0, none⟩
        (fun _ => Except.error ⟨3, some ("select 7 - boom")⟩) :
          QueryOutcome Nat).trace) :=
  ⟨by decide, by decide,
    c1_rethrow_original_sanitize_span ⟨some 1022, some false⟩ none
      ⟨⟨⟨("sqlite3"), none⟩⟩, ⟨1, none, none⟩⟩ ⟨0, none⟩
      ⟨("select ?"), some [("7")], some ("select")⟩
      ⟨3, some ("select 7 - boom")⟩ ("boom")
      (fun _ => Except.error ⟨3, some ("select 7 - boom")⟩)
      (by decide) rfl (by decide)⟩

/-- C9: the catch handler is total and re-raises the original error when
the query descriptor is present and the error message is a string; with a
nullish query descriptor the handler itself fails, the caller observes a
TypeError distinct from the original rejection and the span stays
unended, while the guarded success path tolerates the same nullish
descriptor. -/
theorem c9_catch_handler_guards {α : Type} (cfg : KnexInstrumentationConfig)
    (mv : Option String) (runner : Runner) (ambient : Context) (err : Err)
    (q : Query) (m : String) (v : α) (origE origOk : Context → Except Err α)
    (hb : bypassesTracing cfg runner ambient = false)
    (he : origE (withNewSpanContext ambient) = Except.error err)
    (hok : origOk (withNewSpanContext ambient) = Except.ok v)
    (hm : err.message = some m) :
    (wrappedQuery cfg mv runner (some q) ambient origE).result
        = Except.error (Thrown.original err) ∧
    (wrappedQuery cfg mv runner none ambient origE).result
        = Except.error (Thrown.handlerFailure typeErrorReadingSql) ∧
    Thrown.handlerFailure typeErrorReadingSql ≠ Thrown.original err ∧
    (wrappedQuery cfg mv runner none ambient origE).spans.map Span.endCount
        = [0] ∧
    (wrappedQuery cfg mv runner none ambient origOk).result = Except.ok v := by
  refine ⟨?_, ?_, by simp, ?_, ?_⟩
  · unfold wrappedQuery
    rw [hb]
    simp only [Bool.false_eq_true, if_false]
    rw [he]
    dsimp only
    rw [hm]
  · unfold wrappedQuery
    rw [hb]
    simp only [Bool.false_eq_true, if_false]
    rw [he]
  · unfold wrappedQuery
    rw [hb]
    simp only [Bool.false_eq_true, if_false]
    rw [he]
    simp [initialSpan]
  · unfold wrappedQuery
    rw [hb]
    simp only [Bool.false_eq_true, if_false]
    rw [hok]

/-- C9 witness: the theorem at a concrete environment, rejection
`⟨7, "boom"⟩` and success value `5`. -/
theorem c9_witness :
    bypassesTracing ⟨some 1022, some false⟩
        ⟨⟨⟨("sqlite3"), none⟩⟩, ⟨1, none, none⟩⟩ ⟨0, none⟩ = false ∧
    ((⟨7, some ("boom")⟩ : Err).message = some ("boom")) ∧
    ((wrappedQuery ⟨some 1022, some false⟩ none
        ⟨⟨⟨("sqlite3"), none⟩⟩, ⟨1, none, none⟩⟩
        (some ⟨("select 1"), none, none⟩) ⟨0, none⟩
        (fun _ => Except.error ⟨7, some ("boom")⟩) : QueryOutcome Nat).result
        = Except.error (Thrown.original ⟨7, some ("boom")⟩) ∧
     (wrappedQuery ⟨some 1022, some false⟩ none
        ⟨⟨⟨("sqlite3"), none⟩⟩, ⟨1, none, none⟩⟩ none ⟨0, none⟩
        (fun _ => Except.error ⟨7, some ("boom")⟩) : QueryOutcome Nat).result
        = Except.error (Thrown.handlerFailure typeErrorReadingSql) ∧
     Thrown.handlerFailure typeErrorReadingSql
        ≠ Thrown.original ⟨7, some ("boom")⟩ ∧
     (wrappedQuery ⟨some 1022, some false⟩ none
        ⟨⟨⟨("sqlite3"), none⟩⟩, ⟨1, none, none⟩⟩ none ⟨0, none⟩
        (fun _ => Except.error ⟨7, some ("boom")⟩) :
          QueryOutcome Nat).spans.map Span.endCount = [0] ∧
     (wrappedQuery ⟨some 1022, some false⟩ none
        ⟨⟨⟨("sqlite3"), none⟩⟩, ⟨1, none, none⟩⟩ none ⟨0, none⟩
        (fun _ => Except.ok (5 : Nat))).result = Except.ok 5) :=
  ⟨by decide, by decide,
    c9_catch_handler_guards ⟨some 1022, some false⟩ none
      ⟨⟨⟨("sqlite3"), none⟩⟩, ⟨1, none, none⟩⟩ ⟨0, none⟩
      ⟨7, some ("boom")⟩ ⟨("select 1"), none, none⟩ ("boom") (5 : Nat)
      (fun _ => Except.error ⟨7, some ("boom")⟩)
      (fun _ => Except.ok (5 : Nat)) (by decide) rfl rfl rfl⟩
